import Mathlib

/-!
Verification of the `jarvis` backend AI service layer
(`backend/services/ai_service.py`).

The Python configuration object is a JSON dictionary accessed only through
`dict.get` at fixed paths, so it is embedded as a structure of optional
sections with optional string fields.  External effects (filesystem reads,
JSON parsing, the ollama network calls, the wall clock) are passed in as
explicit function or value parameters; every Python `try/except` that the
source uses to absorb such an effect becomes a `match` on an `Except`
outcome.
-/

namespace Jarvis

structure Identity where
  name : Option String
  display_name : Option String
  role : Option String
deriving Repr, DecidableEq

structure PersonalityFields where
  base_personality : Option String
  tone : Option String
  humor_level : Option String
  confidence : Option String
deriving Repr, DecidableEq

structure Behavior where
  response_style : Option String
  problem_solving : Option String
deriving Repr, DecidableEq

structure InteractionStyle where
  explanation_method : Option String
deriving Repr, DecidableEq

structure PersonalityConfig where
  identity : Option Identity
  personality : Option PersonalityFields
  behavior : Option Behavior
  interaction_style : Option InteractionStyle
deriving Repr, DecidableEq

/-- `config.get("identity", \x7b\x7d).get("name", d)` from the source:
an absent section or an absent key both fall back to `d`. -/
def identityName (c : PersonalityConfig) (d : String) : String :=
  (c.identity.bind Identity.name).getD d

/-- `config.get("identity", \x7b\x7d).get("display_name", d)` from the source. -/
def identityDisplayName (c : PersonalityConfig) (d : String) : String :=
  (c.identity.bind Identity.display_name).getD d

/-- An apostrophe character, kept out of string literals. -/
def apos : String := String.singleton (Char.ofNat 39)

/-- The `base_personality` string of the built-in default configuration
(`_get_default_personality` in the source). -/
def default_base_personality : String :=
  "You are Jarvis, an AI assistant inspired by Tony Stark" ++ apos ++
    "s AI. Be helpful, intelligent, and slightly witty."

/-- `_get_default_personality` from the source: the compiled-in default
configuration used when no file loads. -/
def _get_default_personality : PersonalityConfig :=
  { identity := some
      { name := some "Jarvis"
        display_name := some "J.A.R.V.I.S."
        role := some "AI Assistant" }
    personality := some
      { base_personality := some default_base_personality
        tone := none
        humor_level := none
        confidence := none }
    behavior := none
    interaction_style := none }

/-- The fallback sentence used by `_get_system_prompt` when
`personality.base_personality` is absent. -/
def default_prompt_base : String :=
  "You are Jarvis, an AI assistant. Be helpful and intelligent."

/-- One `if section.get(field): system_prompt += pre + value + post` step of
`_get_system_prompt`.  Python truthiness on a string means present and
non-empty. -/
def appendClause (acc : String) (field : Option String) (pre post : String) : String :=
  match field with
  | some v => if v.isEmpty then acc else acc ++ pre ++ v ++ post
  | none => acc

/-- `_get_system_prompt` from the source, as a pure function of the
configuration: start from the base personality (or the default sentence)
and conditionally append the six trait clauses in the source order. -/
def _get_system_prompt (config : PersonalityConfig) : String :=
  let sp := (config.personality.bind PersonalityFields.base_personality).getD default_prompt_base
  let sp := appendClause sp (config.personality.bind PersonalityFields.tone)
    " Your tone should be " "."
  let sp := appendClause sp (config.personality.bind PersonalityFields.humor_level)
    " Use " "."
  let sp := appendClause sp (config.personality.bind PersonalityFields.confidence)
    " Be " "."
  let sp := appendClause sp (config.behavior.bind Behavior.response_style)
    " Keep responses " "."
  let sp := appendClause sp (config.behavior.bind Behavior.problem_solving)
    " Approach problems in an " " way."
  let sp := appendClause sp (config.interaction_style.bind InteractionStyle.explanation_method)
    " When explaining complex topics, " "."
  sp

/-- The clause a single field contributes, written from the wording of the
specification (section 4.3): a present, non-empty field contributes its
fragment, an absent or empty field contributes nothing. -/
def clauseOf (field : Option String) (pre post : String) : String :=
  match field with
  | some v => if v.isEmpty then "" else pre ++ v ++ post
  | none => ""

/-- System prompt assembly written from the specification text: the base
sentence followed by the six clause fragments in the fixed order. -/
def systemPromptSpec (config : PersonalityConfig) : String :=
  (config.personality.bind PersonalityFields.base_personality).getD default_prompt_base
    ++ clauseOf (config.personality.bind PersonalityFields.tone) " Your tone should be " "."
    ++ clauseOf (config.personality.bind PersonalityFields.humor_level) " Use " "."
    ++ clauseOf (config.personality.bind PersonalityFields.confidence) " Be " "."
    ++ clauseOf (config.behavior.bind Behavior.response_style) " Keep responses " "."
    ++ clauseOf (config.behavior.bind Behavior.problem_solving)
      " Approach problems in an " " way."
    ++ clauseOf (config.interaction_style.bind InteractionStyle.explanation_method)
      " When explaining complex topics, " "."

/-! ## Configuration loader -/

def config_path : String := "../../jarvis_personality.json"

def fallback_config_path : String := "../jarvis_personality.json"

def fallback_config_path2 : String := "jarvis_personality.json"

/-- `_load_personality_config` from the source.  The filesystem is `fs`
(path to optional raw contents, combining `os.path.exists` and `open`/read);
`parseConfig` is `json.load`, with `none` standing for a raised parse error.
The source checks existence of the three candidates with sequential
`if`/`elif`, opens the first existing one, and a parse exception lands in
the single `except` clause returning the default — so a parse failure never
falls through to a later candidate. -/
def _load_personality_config (fs : String → Option String)
    (parseConfig : String → Option PersonalityConfig) : PersonalityConfig :=
  match fs config_path with
  | some raw =>
    match parseConfig raw with
    | some cfg => cfg
    | none => _get_default_personality
  | none =>
    match fs fallback_config_path with
    | some raw =>
      match parseConfig raw with
      | some cfg => cfg
      | none => _get_default_personality
    | none =>
      match fs fallback_config_path2 with
      | some raw =>
        match parseConfig raw with
        | some cfg => cfg
        | none => _get_default_personality
      | none => _get_default_personality

/-- Contents of the first candidate path that exists, in the search order of
the source. -/
def firstExisting (fs : String → Option String) : Option String :=
  (fs config_path).orElse fun _ =>
    (fs fallback_config_path).orElse fun _ => fs fallback_config_path2

/-! ## Response service -/

/-- The ollama client handle; only its presence matters to the service
logic. -/
structure Client where
  host : String
deriving Repr, DecidableEq

structure AIService where
  model : String
  ollama_url : String
  client : Option Client
  personality_config : PersonalityConfig
deriving Repr, DecidableEq

structure ChatResult where
  response : String
  mode : String
  model : String
  personality : String
  timestamp : String
deriving Repr, DecidableEq

structure PersonalityStatus where
  name : String
  display_name : String
  config_loaded : Bool
deriving Repr, DecidableEq

structure ServiceStatus where
  ai_available : Bool
  model : String
  mode : String
  ollama_url : String
  personality : PersonalityStatus
  available_models : Option (List String)
deriving Repr, DecidableEq

/-- `_generate_ai_response` from the source: builds the system prompt and
issues the chat call (`chat` takes the system prompt and the user message
and is the external runtime, `Except.error` standing for a raised
exception); its own `try/except` converts any error to `None`. -/
def _generate_ai_response (svc : AIService)
    (chat : String → String → Except Unit String) (message : String) : Option String :=
  match chat (_get_system_prompt svc.personality_config) message with
  | Except.ok content => some content
  | Except.error _ => none

/-- The echo fallback branch of `generate_response`. -/
def echoResult (svc : AIService) (now message : String) : ChatResult :=
  let name := identityName svc.personality_config "Assistant"
  { response := "Echo from " ++ name ++ ": " ++ message
    mode := "echo"
    model := "fallback"
    personality := name
    timestamp := now }

/-- `generate_response` from the source: when a client handle exists, try
the AI path and use it only when the result is truthy (present and
non-empty); every other case falls back to the echo result.  `now` is
`datetime.now().isoformat()`. -/
def generate_response (svc : AIService) (chat : String → String → Except Unit String)
    (now message : String) : ChatResult :=
  match svc.client with
  | some _ =>
    match _generate_ai_response svc chat message with
    | some ai_response =>
      if ai_response.isEmpty then echoResult svc now message
      else
        { response := ai_response
          mode := "ai"
          model := svc.model
          personality := identityName svc.personality_config "AI"
          timestamp := now }
    | none => echoResult svc now message
  | none => echoResult svc now message

/-- `is_available` from the source: `False` without a client handle,
otherwise `True` exactly when the `client.list()` probe (`probe`) completes
without error; a probe error is caught and converted to `False`. -/
def is_available (svc : AIService) (probe : Except Unit (List String)) : Bool :=
  match svc.client with
  | none => false
  | some _ =>
    match probe with
    | Except.ok _ => true
    | Except.error _ => false

/-- `get_status` from the source.  `probe` is the `client.list()` call made
inside `is_available`; `enum` is the separate `client.list()` call made for
model enumeration, whose failure is swallowed by a bare `except: pass`.
`config_loaded` is `self.personality_config is not None`, which always
holds since both loader branches return a dictionary. -/
def get_status (svc : AIService) (probe enum : Except Unit (List String)) : ServiceStatus :=
  let avail := is_available svc probe
  let status : ServiceStatus :=
    { ai_available := avail
      model := if avail then svc.model else "unavailable"
      mode := if avail then "ai" else "echo"
      ollama_url := svc.ollama_url
      personality :=
        { name := identityName svc.personality_config "Unknown"
          display_name := identityDisplayName svc.personality_config "AI Assistant"
          config_loaded := true }
      available_models := none }
  if avail && svc.client.isSome then
    match enum with
    | Except.ok names => { status with available_models := some names }
    | Except.error _ => status
  else status

/-! ## State-passing forms of the public operations

The three public method bodies in the source contain no assignment to any
attribute of `self`; translating each statement with explicit state passing
therefore threads the input service record through unchanged. -/

def is_available_run (svc : AIService) (probe : Except Unit (List String)) :
    Bool × AIService :=
  (is_available svc probe, svc)

def generate_response_run (svc : AIService) (chat : String → String → Except Unit String)
    (now message : String) : ChatResult × AIService :=
  (generate_response svc chat now message, svc)

def get_status_run (svc : AIService) (probe enum : Except Unit (List String)) :
    ServiceStatus × AIService :=
  (get_status svc probe enum, svc)

/-! ## Concrete instances used by witnesses -/

/-- A chat runtime that always raises. -/
def noChat : String → String → Except Unit String := fun _ _ => Except.error ()

/-- A chat runtime that always answers a fixed non-empty sentence. -/
def okChat : String → String → Except Unit String := fun _ _ => Except.ok "Hello."

/-- The service as constructed with the source defaults when ollama is
unreachable: no client handle, default personality. -/
def svcNoClient : AIService :=
  { model := "llama3.1:8b"
    ollama_url := "http://localhost:11434"
    client := none
    personality_config := _get_default_personality }

/-- The service as constructed with the source defaults when ollama is
reachable. -/
def svcClient : AIService :=
  { model := "llama3.1:8b"
    ollama_url := "http://localhost:11434"
    client := some { host := "http://localhost:11434" }
    personality_config := _get_default_personality }

/-- A configuration with only `personality.base_personality` set. -/
def cfgOnlyBase : PersonalityConfig :=
  { identity := none
    personality := some
      { base_personality := some "Base."
        tone := none
        humor_level := none
        confidence := none }
    behavior := none
    interaction_style := none }

/-- A configuration with no `identity.name` field at all. -/
def cfgNoName : PersonalityConfig :=
  { identity := none, personality := none, behavior := none, interaction_style := none }

/-- A filesystem where the first candidate exists with unparseable contents
and the second exists with parseable contents. -/
def fsTwoCandidates : String → Option String := fun p =>
  if p = config_path then some "bad json"
  else if p = fallback_config_path then some "good json"
  else none

/-- A parse function that accepts exactly the contents of the second
candidate of `fsTwoCandidates`. -/
def parseGoodOnly : String → Option PersonalityConfig := fun s =>
  if s = "good json" then some cfgOnlyBase else none

/-! ## Helper lemmas -/

/-- Python truthiness of an optional string: present and non-empty. -/
def truthy : Option String → Bool
  | some v => !v.isEmpty
  | none => false

theorem appendClause_eq (acc : String) (f : Option String) (pre post : String) :
    appendClause acc f pre post = acc ++ clauseOf f pre post := by
  cases f with
  | none => simp [appendClause, clauseOf]
  | some v =>
    by_cases h : v.isEmpty <;> simp [appendClause, clauseOf, h, String.append_assoc]

theorem clauseOf_not_truthy (f : Option String) (pre post : String)
    (h : truthy f = false) : clauseOf f pre post = "" := by
  cases f with
  | none => rfl
  | some v =>
    simp [truthy] at h
    simp [clauseOf, h]

theorem systemPrompt_eq_spec (c : PersonalityConfig) :
    _get_system_prompt c = systemPromptSpec c := by
  simp [_get_system_prompt, systemPromptSpec, appendClause_eq]

theorem identityName_of_some (c : PersonalityConfig) (d n : String)
    (h : c.identity.bind Identity.name = some n) : identityName c d = n := by
  simp [identityName, h]

theorem identityName_of_none (c : PersonalityConfig) (d : String)
    (h : c.identity.bind Identity.name = none) : identityName c d = d := by
  simp [identityName, h]

theorem echoResult_response_ne_empty (svc : AIService) (now message : String) :
    (echoResult svc now message).response ≠ "" := by
  intro h
  have h0 : (echoResult svc now message).response =
      "Echo from " ++ identityName svc.personality_config "Assistant" ++ ": " ++ message := rfl
  rw [h0] at h
  have h2 := congrArg String.length h
  rw [String.length_append, String.length_append, String.length_append] at h2
  have e1 : ("Echo from " : String).length = 10 := rfl
  have e2 : ("" : String).length = 0 := rfl
  omega

theorem load_default_of_parse_failure (fs : String → Option String)
    (parseConfig : String → Option PersonalityConfig) (raw : String)
    (hex : firstExisting fs = some raw) (hp : parseConfig raw = none) :
    _load_personality_config fs parseConfig = _get_default_personality := by
  unfold firstExisting at hex
  cases h1 : fs config_path with
  | some r =>
    rw [h1] at hex
    simp [Option.orElse] at hex
    subst hex
    simp [_load_personality_config, h1, hp]
  | none =>
    rw [h1] at hex
    simp [Option.orElse] at hex
    cases h2 : fs fallback_config_path with
    | some r =>
      rw [h2] at hex
      simp [Option.orElse] at hex
      subst hex
      simp [_load_personality_config, h1, h2, hp]
    | none =>
      rw [h2] at hex
      simp [Option.orElse] at hex
      simp [_load_personality_config, h1, h2, hex, hp]

/-! ## Claims -/

/-- C1: for every message, if the service has no client handle, or the AI
generation attempt raised an error, or it returned empty content, then
`generate_response` returns mode `echo`, response
`"Echo from " ++ name ++ ": " ++ message` with the configured or default
personality name, and the fixed sentinel model `"fallback"`. -/
theorem generate_response_echo_fallback (svc : AIService)
    (chat : String → String → Except Unit String) (now message : String)
    (h : svc.client = none ∨ _generate_ai_response svc chat message = none ∨
      _generate_ai_response svc chat message = some "") :
    generate_response svc chat now message =
      { response := "Echo from " ++ identityName svc.personality_config "Assistant"
          ++ ": " ++ message
        mode := "echo"
        model := "fallback"
        personality := identityName svc.personality_config "Assistant"
        timestamp := now } := by
  have hecho : echoResult svc now message =
      { response := "Echo from " ++ identityName svc.personality_config "Assistant"
          ++ ": " ++ message
        mode := "echo"
        model := "fallback"
        personality := identityName svc.personality_config "Assistant"
        timestamp := now } := rfl
  rcases h with h | h | h
  · simp [generate_response, h, hecho]
  · cases hc : svc.client with
    | none => simp [generate_response, hc, hecho]
    | some c => simp [generate_response, hc, h, hecho]
  · cases hc : svc.client with
    | none => simp [generate_response, hc, hecho]
    | some c => simp [generate_response, hc, h, hecho, String.isEmpty]

/-- C1 witness: with no client handle the concrete default service echoes. -/
theorem generate_response_echo_fallback_witness :
    generate_response svcNoClient noChat "t0" "X" =
      { response := "Echo from Jarvis: X"
        mode := "echo"
        model := "fallback"
        personality := "Jarvis"
        timestamp := "t0" } :=
  (generate_response_echo_fallback svcNoClient noChat "t0" "X" (Or.inl rfl)).trans rfl

/-- C2 counterexample: with the built-in default configuration (identity
name `"Jarvis"`, display name `"J.A.R.V.I.S."`) the result's personality
field is the identity name, not the display name. -/
theorem generate_response_personality_not_display_name :
    (generate_response svcNoClient noChat "t0" "hi").personality = "Jarvis" ∧
    svcNoClient.personality_config.identity.bind Identity.display_name =
      some "J.A.R.V.I.S." ∧
    ¬ ((generate_response svcNoClient noChat "t0" "hi").personality =
        identityDisplayName svcNoClient.personality_config "AI Assistant") := by
  refine ⟨rfl, rfl, ?_⟩
  intro h
  exact absurd (h.trans rfl) (by decide)

/-- C2 amended: the result's personality field carries the configured
`identity.name` (not `identity.display_name`), in both the ai and the echo
outcome, whenever that name is present. -/
theorem generate_response_personality_is_name (svc : AIService)
    (chat : String → String → Except Unit String) (now message n : String)
    (h : svc.personality_config.identity.bind Identity.name = some n) :
    (generate_response svc chat now message).personality = n := by
  have hn : identityName svc.personality_config "AI" = n := identityName_of_some _ _ _ h
  have hn2 : identityName svc.personality_config "Assistant" = n :=
    identityName_of_some _ _ _ h
  cases hc : svc.client with
  | none => simp [generate_response, hc, echoResult, hn2]
  | some c =>
    cases hg : _generate_ai_response svc chat message with
    | none => simp [generate_response, hc, hg, echoResult, hn2]
    | some s =>
      by_cases hs : s.isEmpty <;>
        simp [generate_response, hc, hg, hs, echoResult, hn, hn2]

/-- C2 amended witness: the default configuration carries name `"Jarvis"`
into the result. -/
theorem generate_response_personality_is_name_witness :
    (generate_response svcNoClient noChat "t0" "hi").personality = "Jarvis" :=
  generate_response_personality_is_name svcNoClient noChat "t0" "hi" "Jarvis" rfl

/-- C3: system-prompt assembly is a pure function of the configuration: it
equals the specification's base-plus-ordered-clauses form, repeated calls
agree, and a configuration whose only truthy field is `base_personality`
yields that string verbatim. -/
theorem system_prompt_assembly :
    (∀ c, _get_system_prompt c = systemPromptSpec c) ∧
    (∀ c, _get_system_prompt c = _get_system_prompt c) ∧
    (∀ c b, c.personality.bind PersonalityFields.base_personality = some b →
      truthy (c.personality.bind PersonalityFields.tone) = false →
      truthy (c.personality.bind PersonalityFields.humor_level) = false →
      truthy (c.personality.bind PersonalityFields.confidence) = false →
      truthy (c.behavior.bind Behavior.response_style) = false →
      truthy (c.behavior.bind Behavior.problem_solving) = false →
      truthy (c.interaction_style.bind InteractionStyle.explanation_method) = false →
      _get_system_prompt c = b) := by
  refine ⟨systemPrompt_eq_spec, fun c => rfl, ?_⟩
  intro c b hb h1 h2 h3 h4 h5 h6
  rw [systemPrompt_eq_spec]
  simp [systemPromptSpec, hb, clauseOf_not_truthy _ _ _ h1, clauseOf_not_truthy _ _ _ h2,
    clauseOf_not_truthy _ _ _ h3, clauseOf_not_truthy _ _ _ h4,
    clauseOf_not_truthy _ _ _ h5, clauseOf_not_truthy _ _ _ h6]

/-- C3 witness: a configuration with only the base personality set yields
it verbatim, and the source assembly agrees with the specification form. -/
theorem system_prompt_assembly_witness :
    _get_system_prompt cfgOnlyBase = "Base." ∧
    _get_system_prompt cfgOnlyBase = systemPromptSpec cfgOnlyBase :=
  ⟨system_prompt_assembly.2.2 cfgOnlyBase "Base." rfl rfl rfl rfl rfl rfl rfl,
   system_prompt_assembly.1 cfgOnlyBase⟩

/-- C4: if the first candidate that exists fails to parse, the loader
returns the built-in default and never consults a later candidate: the
result is the default for every filesystem and parse function satisfying
the hypotheses, regardless of what later candidates hold. -/
theorem load_no_fallthrough_on_parse_failure (fs : String → Option String)
    (parseConfig : String → Option PersonalityConfig) (raw : String)
    (hex : firstExisting fs = some raw) (hp : parseConfig raw = none) :
    _load_personality_config fs parseConfig = _get_default_personality :=
  load_default_of_parse_failure fs parseConfig raw hex hp

/-- C4 witness: the first candidate exists with unparseable contents, the
second candidate exists and would parse, yet the loader yields the
default. -/
theorem load_no_fallthrough_on_parse_failure_witness :
    _load_personality_config fsTwoCandidates parseGoodOnly = _get_default_personality ∧
    fsTwoCandidates fallback_config_path = some "good json" ∧
    parseGoodOnly "good json" = some cfgOnlyBase :=
  ⟨load_no_fallthrough_on_parse_failure fsTwoCandidates parseGoodOnly "bad json" rfl rfl,
   rfl, rfl⟩

/-- C5: the loader is a total function (the embedding of a body whose every
failure is caught); under each failure mode — no candidate exists, or the
first existing candidate fails to parse — it returns the built-in default,
whose identity name is `"Jarvis"` and whose base personality is the
compiled-in default sentence. -/
theorem load_total_defaults (fs : String → Option String)
    (parseConfig : String → Option PersonalityConfig)
    (h : (fs config_path = none ∧ fs fallback_config_path = none ∧
        fs fallback_config_path2 = none) ∨
      ∃ raw, firstExisting fs = some raw ∧ parseConfig raw = none) :
    _load_personality_config fs parseConfig = _get_default_personality ∧
    (_load_personality_config fs parseConfig).identity.bind Identity.name =
      some "Jarvis" ∧
    (_load_personality_config fs parseConfig).personality.bind
      PersonalityFields.base_personality = some default_base_personality := by
  have hd : _load_personality_config fs parseConfig = _get_default_personality := by
    rcases h with ⟨h1, h2, h3⟩ | ⟨raw, hex, hp⟩
    · simp [_load_personality_config, h1, h2, h3]
    · exact load_default_of_parse_failure fs parseConfig raw hex hp
  rw [hd]
  exact ⟨rfl, rfl, rfl⟩

/-- C5 witness: with no candidate file anywhere, the loader returns the
default with name `"Jarvis"`. -/
theorem load_total_defaults_witness :
    _load_personality_config (fun _ => none) (fun _ => none) = _get_default_personality ∧
    (_load_personality_config (fun _ => none) (fun _ => none)).identity.bind
      Identity.name = some "Jarvis" ∧
    (_load_personality_config (fun _ => none) (fun _ => none)).personality.bind
      PersonalityFields.base_personality = some default_base_personality :=
  load_total_defaults (fun _ => none) (fun _ => none) (Or.inl ⟨rfl, rfl, rfl⟩)

/-- C6: `get_status` is a total function of the service state and the two
probe outcomes; `available_models` is present only when `ai_available` is
true and the enumeration call succeeded, and an enumeration failure leaves
every other field exactly as in the success case. -/
theorem get_status_models_best_effort (svc : AIService)
    (probe enum : Except Unit (List String)) :
    ((get_status svc probe enum).available_models.isSome = true →
      (get_status svc probe enum).ai_available = true ∧
      ∃ names, enum = Except.ok names) ∧
    get_status svc probe (Except.error ()) =
      { get_status svc probe enum with available_models := none } := by
  constructor
  · intro hsome
    by_cases hA : (is_available svc probe && svc.client.isSome) = true
    · have h2 := hA
      simp [Bool.and_eq_true] at h2
      cases enum with
      | ok names => exact ⟨by simp [get_status, hA, h2.1, h2.2], names, rfl⟩
      | error e => simp [get_status, hA] at hsome
    · simp [get_status, hA] at hsome
  · by_cases hA : (is_available svc probe && svc.client.isSome) = true
    · cases enum with
      | ok names => simp [get_status, hA]
      | error e => simp [get_status, hA]
    · simp [get_status, hA]

/-- C6 witness: with a client, a successful probe and a successful
enumeration, `ai_available` is true and the enumeration outcome is an
`ok`. -/
theorem get_status_models_best_effort_witness :
    (get_status svcClient (Except.ok []) (Except.ok ["llama3.1:8b"])).ai_available = true ∧
    ∃ names, (Except.ok ["llama3.1:8b"] : Except Unit (List String)) = Except.ok names :=
  (get_status_models_best_effort svcClient (Except.ok []) (Except.ok ["llama3.1:8b"])).1 rfl

/-- C7: with no client handle `is_available` is false and independent of
any probe outcome (no network call is consulted); with a client handle it
is true exactly when the probe completed without error, an error being
converted to false. -/
theorem is_available_client_gate (svc : AIService)
    (probe probe2 : Except Unit (List String)) :
    (svc.client = none → is_available svc probe = false ∧
      is_available svc probe = is_available svc probe2) ∧
    (∀ c, svc.client = some c →
      (is_available svc probe = true ↔ ∃ ms, probe = Except.ok ms)) := by
  constructor
  · intro h
    simp [is_available, h]
  · intro c h
    cases probe with
    | ok ms => simp [is_available, h]
    | error e => simp [is_available, h]

/-- C7 witness: the gate evaluated at a clientless service and at a service
with a client and a failed probe. -/
theorem is_available_client_gate_witness :
    (is_available svcNoClient (Except.error ()) = false ∧
      is_available svcNoClient (Except.error ()) =
        is_available svcNoClient (Except.ok [])) ∧
    (is_available svcClient (Except.error ()) = true ↔
      ∃ ms, (Except.error () : Except Unit (List String)) = Except.ok ms) :=
  ⟨(is_available_client_gate svcNoClient (Except.error ()) (Except.ok [])).1 rfl,
   (is_available_client_gate svcClient (Except.error ()) (Except.error ())).2
     { host := "http://localhost:11434" } rfl⟩

/-- C8: for every input text, including the empty string,
`generate_response` yields a mode in the set containing `ai` and `echo`
and a non-empty response. -/
theorem generate_response_mode_and_nonempty (svc : AIService)
    (chat : String → String → Except Unit String) (now message : String) :
    ((generate_response svc chat now message).mode = "ai" ∨
      (generate_response svc chat now message).mode = "echo") ∧
    (generate_response svc chat now message).response ≠ "" := by
  have hecho := echoResult_response_ne_empty svc now message
  cases hc : svc.client with
  | none =>
    constructor
    · exact Or.inr (by simp [generate_response, hc, echoResult])
    · simpa [generate_response, hc] using hecho
  | some c =>
    cases hg : _generate_ai_response svc chat message with
    | none =>
      constructor
      · exact Or.inr (by simp [generate_response, hc, hg, echoResult])
      · simpa [generate_response, hc, hg] using hecho
    | some s =>
      by_cases hs : s.isEmpty
      · constructor
        · exact Or.inr (by simp [generate_response, hc, hg, hs, echoResult])
        · simpa [generate_response, hc, hg, hs] using hecho
      · constructor
        · exact Or.inl (by simp [generate_response, hc, hg, hs])
        · have hne : s ≠ "" := by
            intro heq
            subst heq
            exact hs rfl
          simpa [generate_response, hc, hg, hs] using hne

/-- C9: the state-passing forms of the three public operations leave the
whole service state — model identifier, endpoint, client handle and
personality configuration — unchanged, on every path. -/
theorem public_ops_preserve_state (svc : AIService)
    (probe probe2 enum : Except Unit (List String))
    (chat : String → String → Except Unit String) (now message : String) :
    (is_available_run svc probe).2 = svc ∧
    (generate_response_run svc chat now message).2 = svc ∧
    (get_status_run svc probe2 enum).2 = svc ∧
    (generate_response_run svc chat now message).2.model = svc.model ∧
    (generate_response_run svc chat now message).2.ollama_url = svc.ollama_url ∧
    (generate_response_run svc chat now message).2.client = svc.client ∧
    (generate_response_run svc chat now message).2.personality_config =
      svc.personality_config :=
  ⟨rfl, rfl, rfl, rfl, rfl, rfl, rfl⟩

/-- C10: when the configuration has no `identity.name`, the substituted
default name differs per operation: the echo path of `generate_response`
uses `"Assistant"`, its ai path uses `"AI"`, and `get_status` reports
`"Unknown"`. -/
theorem default_name_inconsistent (m u : String) (c : Client)
    (cfg : PersonalityConfig) (chat : String → String → Except Unit String)
    (now message s : String) (probe enum : Except Unit (List String))
    (hname : cfg.identity.bind Identity.name = none)
    (hchat : chat (_get_system_prompt cfg) message = Except.ok s)
    (hs : s.isEmpty = false) :
    (generate_response
        { model := m, ollama_url := u, client := none, personality_config := cfg }
        chat now message).response = "Echo from Assistant: " ++ message ∧
    (generate_response
        { model := m, ollama_url := u, client := none, personality_config := cfg }
        chat now message).personality = "Assistant" ∧
    (generate_response
        { model := m, ollama_url := u, client := some c, personality_config := cfg }
        chat now message).personality = "AI" ∧
    (get_status
        { model := m, ollama_url := u, client := none, personality_config := cfg }
        probe enum).personality.name = "Unknown" := by
  have hn : ∀ d, identityName cfg d = d := fun d => identityName_of_none _ _ hname
  refine ⟨?_, ?_, ?_, ?_⟩
  · have : (generate_response
        { model := m, ollama_url := u, client := none, personality_config := cfg }
        chat now message).response =
        "Echo from " ++ identityName cfg "Assistant" ++ ": " ++ message := rfl
    rw [this, hn]
    have hpre : ("Echo from " ++ "Assistant" ++ ": " : String) = "Echo from Assistant: " := rfl
    rw [hpre]
  · have : (generate_response
        { model := m, ollama_url := u, client := none, personality_config := cfg }
        chat now message).personality = identityName cfg "Assistant" := rfl
    rw [this, hn]
  · simp [generate_response, _generate_ai_response, hchat, hs, hn]
  · have hpn : (get_status
        { model := m, ollama_url := u, client := none, personality_config := cfg }
        probe enum).personality.name = identityName cfg "Unknown" := by
      simp [get_status, is_available]
    rw [hpn, hn]

/-- C10 witness: a concrete nameless configuration exhibits all three
default names at once. -/
theorem default_name_inconsistent_witness :
    (generate_response
        { model := "m", ollama_url := "u", client := none, personality_config := cfgNoName }
        okChat "t0" "X").response = "Echo from Assistant: " ++ "X" ∧
    (generate_response
        { model := "m", ollama_url := "u", client := none, personality_config := cfgNoName }
        okChat "t0" "X").personality = "Assistant" ∧
    (generate_response
        { model := "m", ollama_url := "u", client := some { host := "u" },
          personality_config := cfgNoName }
        okChat "t0" "X").personality = "AI" ∧
    (get_status
        { model := "m", ollama_url := "u", client := none, personality_config := cfgNoName }
        (Except.error ()) (Except.error ())).personality.name = "Unknown" :=
  default_name_inconsistent "m" "u" { host := "u" } cfgNoName okChat "t0" "X" "Hello."
    (Except.error ()) (Except.error ()) rfl rfl rfl

end Jarvis
